import Mathlib

/-!
Shallow embedding of the Gong MCP server (`gong_mcp_server.py`).

The server exposes four read-only operations over the Gong HTTP API:
`search_calls`, `get_call_transcript`, `get_call_stats`, `list_scorecards`,
plus a dispatch layer (`handle_call_tool`) that catches every exception and
turns it into a `{"error": message}` envelope.

Modelling conventions:
- JSON values are the inductive `Json`; Python dicts are association lists
  (keys unique, lookup takes the first binding).
- Python exceptions are the `Except String` monad; the string is `str(e)`.
  Exception message texts are kept where a property depends on them
  (the dispatch envelope, the HTTP-status message); for messages whose
  exact Python rendering is irrelevant (KeyError and AttributeError reprs)
  a close paraphrase is used.
- The network is an oracle `remote : HttpRequest → RemoteResponse`; each
  handler returns the list of requests it actually issued together with its
  result, so "no network call was made" is `trace = []`.
- `datetime.now()` is an integer timestamp (seconds). `search_calls` and
  `list_scorecards` each read the clock twice (once for `from`, once for
  `to`), modelled by the two parameters `now1 now2`.
- The dispatch layer wraps its result in pretty-printed JSON text; the
  serialization is elided, the envelope is modelled as its JSON value.
-/

namespace GongMCP

/-- JSON-like values exchanged with the Gong API and with the tool caller. -/
inductive Json : Type where
  | null : Json
  | bool : Bool → Json
  | num : Int → Json
  | str : String → Json
  | arr : List Json → Json
  | obj : List (String × Json) → Json

/-- Python dict lookup: the value stored under key `k`, if present. -/
def lookupKey (fields : List (String × Json)) (k : String) : Option Json :=
  (fields.find? (fun p => p.1 == k)).map (fun p => p.2)

/-- Python `d.get(k, default)`: the stored value when the key is present
(even when that value is `None`), the default when absent; raises
(AttributeError) when the receiver is not a dict. -/
def jget (j : Json) (k : String) (default : Json) : Except String Json :=
  match j with
  | .obj fields => .ok ((lookupKey fields k).getD default)
  | _ => .error ("AttributeError: object has no attribute get (key " ++ k ++ ")")

/-- Python truthiness of a JSON value (`if x:`). -/
def truthy : Json → Bool
  | .null => false
  | .bool b => b
  | .num n => n != 0
  | .str s => s != ""
  | .arr xs => !xs.isEmpty
  | .obj fields => !fields.isEmpty

/-- Python `str()` of a JSON value, as used in f-strings. Container reprs are
abbreviated; no property in this development stringifies a container. -/
def pyStr : Json → String
  | .null => "None"
  | .bool true => "True"
  | .bool false => "False"
  | .num n => toString n
  | .str s => s
  | .arr _ => "[...]"
  | .obj _ => "(dict)"

/-- A Python list comprehension whose element expression may raise:
evaluates left to right, propagating the first exception. -/
def mapExcept (f : α → Except String β) : List α → Except String (List β)
  | [] => .ok []
  | x :: xs =>
    match f x with
    | .error e => .error e
    | .ok y =>
      match mapExcept f xs with
      | .error e => .error e
      | .ok ys => .ok (y :: ys)

/-- The HTTP request `make_gong_request` hands to httpx: method, endpoint
path, query parameters (`params=` kwarg) and JSON body (`json=` kwarg). -/
structure HttpRequest where
  method : String
  endpoint : String
  query : List (String × String)
  body : Option Json

/-- What the remote end does with a request: a 2xx response with a JSON
body, a non-2xx status (with response text), or a transport-level failure. -/
inductive RemoteResponse : Type where
  | success : Json → RemoteResponse
  | httpError : Nat → String → RemoteResponse
  | transportFailure : String → RemoteResponse

/-- `make_gong_request`, after the response arrives: `raise_for_status`
turns a non-2xx status into
`ValueError(f"Gong API error {status}: {text}")`, any other failure into
`ValueError(f"Request failed: {msg}")`; a 2xx response is returned parsed. -/
def make_gong_request (resp : RemoteResponse) : Except String Json :=
  match resp with
  | .success body => .ok body
  | .httpError status text =>
      .error ("Gong API error " ++ toString status ++ ": " ++ text)
  | .transportFailure msg => .error ("Request failed: " ++ msg)

/-- `datetime.isoformat() + "Z"` applied to a timestamp. -/
def isoZ (t : Int) : String := toString t ++ "Z"

def secondsPerDay : Int := 86400

/-- The date window `(now - timedelta(days=days_back), now)` computed at the
top of `search_calls` and `list_scorecards`; `now1` is the clock at the
first `datetime.now()` call, `now2` at the second. -/
def dateWindow (now1 now2 : Int) (days_back : Int) : Int × Int :=
  (now1 - days_back * secondsPerDay, now2)

/-- `params.get("days_back", default)` followed by its use in
`timedelta(days=days_back)`: absent gives the default, a number is used as
is, any other present value makes `timedelta` raise a TypeError. -/
def getDaysBack (params : List (String × Json)) (default : Int) :
    Except String Int :=
  match lookupKey params "days_back" with
  | none => .ok default
  | some (.num n) => .ok n
  | some _ => .error "unsupported type for timedelta days"

/-- The `request_body` dict built by `search_calls` (date filter, plus
`ownerEmails`/`minDuration` when the corresponding parameter is truthy).
The source constructs this value but never transmits it. -/
def searchRequestBody (params : List (String × Json))
    (from_date to_date : String) : Json :=
  let base := [("fromDateTime", Json.str from_date),
               ("toDateTime", Json.str to_date)]
  let withOwner :=
    match lookupKey params "owner_email" with
    | some v => if truthy v then base ++ [("ownerEmails", Json.arr [v])] else base
    | none => base
  let withDuration :=
    match lookupKey params "min_duration" with
    | some v =>
        if truthy v then withOwner ++ [("minDuration", v)] else withOwner
    | none => withOwner
  Json.obj [("filter", Json.obj withDuration)]

/-- Projection of one remote call object inside the `search_calls` loop:
`call["id"]` raises on a missing key or a non-dict call, every other field
is a `.get` with a default; `owner` must be absent or a dict, and
`participants` absent or a list of dicts, or the corresponding access
raises. -/
def projectCall (call : Json) : Except String Json :=
  match call with
  | .obj fields =>
    match lookupKey fields "id" with
    | none => .error "KeyError: id"
    | some id =>
      match jget call "title" (.str "Untitled") with
      | .error e => .error e
      | .ok title =>
      match jget call "started" .null with
      | .error e => .error e
      | .ok date =>
      match jget call "duration" .null with
      | .error e => .error e
      | .ok duration =>
      match jget call "owner" (.obj []) with
      | .error e => .error e
      | .ok ownerObj =>
      match jget ownerObj "emailAddress" .null with
      | .error e => .error e
      | .ok owner =>
      match jget call "participants" (.arr []) with
      | .error e => .error e
      | .ok participantsJ =>
      match participantsJ with
      | .arr ps =>
        match mapExcept (fun p => jget p "emailAddress" .null) ps with
        | .error e => .error e
        | .ok participants =>
        match jget call "url" .null with
        | .error e => .error e
        | .ok url =>
          .ok (.obj [("id", id), ("title", title), ("date", date),
                     ("duration", duration), ("owner", owner),
                     ("participants", .arr participants), ("url", url)])
      | _ => .error "TypeError: participants is not iterable"
  | _ => .error "TypeError: call is not a dict"

/-- The response reshaping at the bottom of `search_calls`: take the first
10 entries of `result.get("calls", [])`, project each, and return
`{"found": len(calls), "calls": calls}`. -/
def formatSearchResponse (result : Json) : Except String Json :=
  match jget result "calls" (.arr []) with
  | .error e => .error e
  | .ok callsJ =>
    match callsJ with
    | .arr cs =>
      match mapExcept projectCall (cs.take 10) with
      | .error e => .error e
      | .ok calls =>
          .ok (.obj [("found", .num (calls.length : Int)),
                     ("calls", .arr calls)])
    | _ => .error "TypeError: calls value is not sliceable"

/-- The request/response step shared by all four handlers: issue the
request, propagate the executor's exception, otherwise reshape the parsed
body. The issued request is recorded in the trace. -/
def runRequest (req : HttpRequest) (remote : HttpRequest → RemoteResponse)
    (reshape : Json → Except String Json) :
    List HttpRequest × Except String Json :=
  match make_gong_request (remote req) with
  | .error e => ([req], .error e)
  | .ok result => ([req], reshape result)

/-- `search_calls`: read `days_back` (default 7), compute the date window,
build (but never send) the richer `request_body`, issue a GET on `/calls`
with only the date-range query, then reshape the response. Returns the
requests issued together with the result. -/
def search_calls (now1 now2 : Int) (remote : HttpRequest → RemoteResponse)
    (params : List (String × Json)) :
    List HttpRequest × Except String Json :=
  match getDaysBack params 7 with
  | .error e => ([], .error e)
  | .ok days_back =>
    let w := dateWindow now1 now2 days_back
    let from_date := isoZ w.1
    let to_date := isoZ w.2
    let _request_body := searchRequestBody params from_date to_date
    runRequest
      { method := "GET", endpoint := "/calls",
        query := [("fromDateTime", from_date), ("toDateTime", to_date)],
        body := none }
      remote formatSearchResponse

/-- Projection of one sentence object inside the transcript loop. -/
def projectSentence (sentence : Json) : Except String Json :=
  match jget sentence "speakerName" (.str "Unknown") with
  | .error e => .error e
  | .ok speaker =>
    match jget sentence "text" (.str "") with
    | .error e => .error e
    | .ok text =>
      match jget sentence "start" (.num 0) with
      | .error e => .error e
      | .ok time =>
        .ok (.obj [("speaker", speaker), ("text", text), ("time", time)])

/-- The response reshaping of `get_call_transcript`: an empty (falsy)
`callTranscripts` yields the soft `{"error": ...}` result; otherwise the
first transcript entry has its sentences projected, capped at 50. -/
def formatTranscript (call_id : Json) (result : Json) : Except String Json :=
  match jget result "callTranscripts" (.arr []) with
  | .error e => .error e
  | .ok transcriptsJ =>
    if truthy transcriptsJ = false then
      .ok (.obj [("error", .str "No transcript found for this call")])
    else
      match transcriptsJ with
      | .arr (t :: _) =>
        match jget t "sentences" (.arr []) with
        | .error e => .error e
        | .ok sentencesJ =>
          match sentencesJ with
          | .arr sentences =>
            match mapExcept projectSentence (sentences.take 50) with
            | .error e => .error e
            | .ok conversation =>
                .ok (.obj [("call_id", call_id),
                           ("conversation", .arr conversation),
                           ("total_sentences", .num (sentences.length : Int)),
                           ("showing", .num (min 50 sentences.length : Nat))])
          | _ => .error "TypeError: sentences value is not sliceable"
      | .arr [] => .error "IndexError: list index out of range"
      | _ => .error "TypeError: transcripts value is not subscriptable"

/-- `get_call_transcript`: POST `/calls/transcript` with the single-call
filter body, then reshape. -/
def get_call_transcript (remote : HttpRequest → RemoteResponse)
    (call_id : Json) : List HttpRequest × Except String Json :=
  runRequest
    { method := "POST", endpoint := "/calls/transcript", query := [],
      body := some (.obj [("filter", .obj [("callIds", .arr [call_id])])]) }
    remote (formatTranscript call_id)

/-- The response reshaping of `get_call_stats`. -/
def formatStats (call_id : Json) (result : Json) : Except String Json :=
  match jget result "call" (.obj []) with
  | .error e => .error e
  | .ok call =>
    match jget call "stats" (.obj []) with
    | .error e => .error e
    | .ok stats =>
      match jget call "title" .null with
      | .error e => .error e
      | .ok title =>
      match jget call "duration" .null with
      | .error e => .error e
      | .ok duration =>
      match jget stats "talkRatio" .null with
      | .error e => .error e
      | .ok talkRatio =>
      match jget stats "longestMonologue" .null with
      | .error e => .error e
      | .ok longestMonologue =>
      match jget stats "questionsAsked" .null with
      | .error e => .error e
      | .ok questionsAsked =>
      match jget stats "engagementScore" .null with
      | .error e => .error e
      | .ok engagementScore =>
      match jget call "sentiment" .null with
      | .error e => .error e
      | .ok sentiment =>
        .ok (.obj [("call_id", call_id), ("title", title),
                   ("duration_seconds", duration),
                   ("talk_ratio", talkRatio),
                   ("longest_monologue", longestMonologue),
                   ("questions_asked", questionsAsked),
                   ("engagement_score", engagementScore),
                   ("sentiment", sentiment)])

/-- `get_call_stats`: GET `/calls/{call_id}`, then reshape. -/
def get_call_stats (remote : HttpRequest → RemoteResponse)
    (call_id : Json) : List HttpRequest × Except String Json :=
  runRequest
    { method := "GET", endpoint := "/calls/" ++ pyStr call_id, query := [],
      body := none }
    remote (formatStats call_id)

/-- The response reshaping of `list_scorecards`. -/
def formatScorecards (days_back : Int) (result : Json) : Except String Json :=
  match jget result "scorecards" (.arr []) with
  | .error e => .error e
  | .ok scorecards =>
      .ok (.obj [("period", .str ("Last " ++ toString days_back ++ " days")),
                 ("scorecards", scorecards)])

/-- `list_scorecards`: read `days_back` (default 30), POST
`/stats/scorecards` with the date window as filter body, pass the
scorecard array through. -/
def list_scorecards (now1 now2 : Int) (remote : HttpRequest → RemoteResponse)
    (params : List (String × Json)) :
    List HttpRequest × Except String Json :=
  match getDaysBack params 30 with
  | .error e => ([], .error e)
  | .ok days_back =>
    let w := dateWindow now1 now2 days_back
    runRequest
      { method := "POST", endpoint := "/stats/scorecards", query := [],
        body := some (.obj [("filter",
          .obj [("fromDateTime", .str (isoZ w.1)),
                ("toDateTime", .str (isoZ w.2))])]) }
      remote (formatScorecards days_back)

/-- The `call_id` guard in `handle_call_tool`:
`if not arguments or "call_id" not in arguments: raise` then
`arguments["call_id"]`. An absent argument map and an empty (falsy) one
both fail; otherwise the stored value is used. -/
def requireCallId (arguments : Option (List (String × Json))) : Option Json :=
  match arguments with
  | none => none
  | some args => if args.isEmpty then none else lookupKey args "call_id"

/-- The body of the `try` block in `handle_call_tool`: dispatch by exact
tool name (checking `call_id` presence for the two operations that require
it), producing either the handler's result or the exception it raised. -/
def dispatch (now1 now2 : Int) (remote : HttpRequest → RemoteResponse)
    (name : String) (arguments : Option (List (String × Json))) :
    List HttpRequest × Except String Json :=
  if name = "search_calls" then
    search_calls now1 now2 remote (arguments.getD [])
  else if name = "get_call_transcript" then
    match requireCallId arguments with
    | none => ([], .error "call_id is required for get_call_transcript")
    | some call_id => get_call_transcript remote call_id
  else if name = "get_call_stats" then
    match requireCallId arguments with
    | none => ([], .error "call_id is required for get_call_stats")
    | some call_id => get_call_stats remote call_id
  else if name = "list_scorecards" then
    list_scorecards now1 now2 remote (arguments.getD [])
  else ([], .error ("Unknown tool: " ++ name))

/-- The `except` clause in `handle_call_tool`: a success result is returned
as is, any exception is rendered as the `{"error": str(e)}` envelope. -/
def envelope : List HttpRequest × Except String Json → List HttpRequest × Json
  | (trace, .ok result) => (trace, result)
  | (trace, .error e) => (trace, .obj [("error", .str e)])

/-- `handle_call_tool`: dispatch wrapped in the catch-all envelope. The
first component is the list of HTTP requests issued during the
invocation. -/
def handle_call_tool (now1 now2 : Int)
    (remote : HttpRequest → RemoteResponse) (name : String)
    (arguments : Option (List (String × Json))) : List HttpRequest × Json :=
  envelope (dispatch now1 now2 remote name arguments)

/-- The envelope the dispatch layer produces for any caught exception. -/
def isErrorEnvelope : Json → Bool
  | .obj [("error", .str _)] => true
  | _ => false

/-- Whether an operation completed without raising. -/
def isOkE : Except String α → Bool
  | .ok _ => true
  | .error _ => false

/-- A remote end that answers every request with the same 2xx JSON body. -/
def constRemote (payload : Json) : HttpRequest → RemoteResponse :=
  fun _ => .success payload

/-- A remote end that answers every request with the same non-2xx status. -/
def httpErrorRemote (status : Nat) (text : String) :
    HttpRequest → RemoteResponse :=
  fun _ => .httpError status text

/-- Whether a JSON value is a dict. -/
def isObjB : Json → Bool
  | .obj _ => true
  | _ => false

/-- Whether a call object carries the `id` key (the one access in the
search projection that can raise a KeyError). -/
def hasIdKey : Json → Bool
  | .obj fields => (lookupKey fields "id").isSome
  | _ => false

/-- A dict that lacks the `id` key. -/
def objWithoutId : Json → Bool
  | .obj fields => (lookupKey fields "id").isNone
  | _ => false

/-- The `owner` field, when present, must be a dict for
`call.get("owner", {}).get("emailAddress")` not to raise. -/
def ownerFieldOk (fields : List (String × Json)) : Bool :=
  match lookupKey fields "owner" with
  | none => true
  | some (.obj _) => true
  | some _ => false

/-- The `participants` field, when present, must be a list of dicts for
the participant comprehension not to raise. -/
def participantsFieldOk (fields : List (String × Json)) : Bool :=
  match lookupKey fields "participants" with
  | none => true
  | some (.arr ps) => ps.all isObjB
  | some _ => false

/-- A call object on which the search projection cannot raise: a dict with
an `id` key whose `owner` and `participants` fields, when present, have
the shape the projection dereferences. -/
def callWellFormed : Json → Bool
  | .obj fields =>
      (lookupKey fields "id").isSome && ownerFieldOk fields
        && participantsFieldOk fields
  | _ => false

/-- The projection of a call object that carries only an `id`. -/
def sampleProjectedCall : Json :=
  .obj [("id", .num 1), ("title", .str "Untitled"), ("date", .null),
        ("duration", .null), ("owner", .null), ("participants", .arr []),
        ("url", .null)]

/-- The projection of a sentence object that carries no fields. -/
def sampleSentenceProj : Json :=
  .obj [("speaker", .str "Unknown"), ("text", .str ""), ("time", .num 0)]


/-! Helper lemmas shared by the claim theorems below. -/

theorem mapExcept_ok_length (f : α → Except String β) (xs : List α)
    (ys : List β) (h : mapExcept f xs = .ok ys) : ys.length = xs.length := by
  induction xs generalizing ys with
  | nil =>
    unfold mapExcept at h
    injection h with h
    subst h
    rfl
  | cons a tl ih =>
    unfold mapExcept at h
    rcases ha : f a with e | y <;> rw [ha] at h
    · cases h
    · rcases hm : mapExcept f tl with e | zs <;> rw [hm] at h
      · cases h
      · injection h with h
        subst h
        simp [ih zs hm]

theorem mapExcept_isOk_of_forall (f : α → Except String β) (xs : List α)
    (h : ∀ x ∈ xs, isOkE (f x) = true) : isOkE (mapExcept f xs) = true := by
  induction xs with
  | nil => rfl
  | cons a tl ih =>
    unfold mapExcept
    rcases ha : f a with e | y
    · have hha := h a (List.mem_cons_self a tl)
      rw [ha] at hha
      exact absurd hha (by simp [isOkE])
    · rcases hm : mapExcept f tl with e | ys
      · have htl := ih (fun x hx => h x (List.mem_cons_of_mem a hx))
        rw [hm] at htl
        exact absurd htl (by simp [isOkE])
      · rfl

theorem mapExcept_isOk_false_of_mem (f : α → Except String β) (x : α)
    (xs : List α) (hx : x ∈ xs) (hfx : isOkE (f x) = false) :
    isOkE (mapExcept f xs) = false := by
  induction xs with
  | nil => cases hx
  | cons a tl ih =>
    unfold mapExcept
    rcases List.mem_cons.mp hx with rfl | hmem
    · rcases ha : f x with e | y
      · rfl
      · rw [ha] at hfx
        cases hfx
    · rcases ha : f a with e | y
      · rfl
      · rcases hm : mapExcept f tl with e | ys
        · rfl
        · have := ih hmem
          rw [hm] at this
          cases this

theorem isOkE_false_iff (r : Except String α) :
    isOkE r = false ↔ ∃ e, r = .error e := by
  rcases r with e | v <;> simp [isOkE]

theorem isOkE_true_iff (r : Except String α) :
    isOkE r = true ↔ ∃ v, r = .ok v := by
  rcases r with e | v <;> simp [isOkE]

theorem jget_obj (fields : List (String × Json)) (k : String) (d : Json) :
    jget (.obj fields) k d = .ok ((lookupKey fields k).getD d) := rfl

theorem jget_isOk_of_isObjB (p : Json) (k : String) (d : Json)
    (h : isObjB p = true) : isOkE (jget p k d) = true := by
  rcases p with _ | b | n | s | xs | fields <;> simp [isObjB] at h
  rfl

theorem projectCall_isOk_of_wellFormed (c : Json)
    (h : callWellFormed c = true) : isOkE (projectCall c) = true := by
  rcases c with _ | b | n | s | xs | fields <;> simp [callWellFormed] at h
  obtain ⟨⟨hid, hown⟩, hpart⟩ := h
  rw [Option.isSome_iff_exists] at hid
  obtain ⟨idv, hid⟩ := hid
  simp only [projectCall, hid, jget_obj]
  unfold ownerFieldOk at hown
  rcases howner : lookupKey fields "owner" with _ | ov <;>
      rw [howner] at hown <;> simp only [howner, Option.getD]
  case none =>
    simp only [jget_obj]
    unfold participantsFieldOk at hpart
    rcases hpp : lookupKey fields "participants" with _ | pv <;>
        rw [hpp] at hpart <;> simp only [hpp, Option.getD]
    case none =>
      rcases hm : mapExcept (fun p => jget p "emailAddress" .null)
          ([] : List Json) with e | parts
      · cases hm
      · simp only [hm]; rfl
    case some =>
      rcases pv with _ | b | n | s | ps | pfields <;> simp at hpart
      · have hmap : isOkE (mapExcept (fun p => jget p "emailAddress" .null)
            ps) = true :=
          mapExcept_isOk_of_forall _ _
            (fun p hp => jget_isOk_of_isObjB p _ _ (hpart p hp))
        rcases hm : mapExcept (fun p => jget p "emailAddress" .null)
            ps with e | parts
        · rw [hm] at hmap; cases hmap
        · simp only [hm]; rfl
  case some =>
    rcases ov with _ | b | n | s | os | ofields <;> simp at hown
    simp only [jget_obj]
    unfold participantsFieldOk at hpart
    rcases hpp : lookupKey fields "participants" with _ | pv <;>
        rw [hpp] at hpart <;> simp only [hpp, Option.getD]
    case none =>
      rcases hm : mapExcept (fun p => jget p "emailAddress" .null)
          ([] : List Json) with e | parts
      · cases hm
      · simp only [hm]; rfl
    case some =>
      rcases pv with _ | b | n | s | ps | pfields <;> simp at hpart
      · have hmap : isOkE (mapExcept (fun p => jget p "emailAddress" .null)
            ps) = true :=
          mapExcept_isOk_of_forall _ _
            (fun p hp => jget_isOk_of_isObjB p _ _ (hpart p hp))
        rcases hm : mapExcept (fun p => jget p "emailAddress" .null)
            ps with e | parts
        · rw [hm] at hmap; cases hmap
        · simp only [hm]; rfl

/-- C1: for every remote search payload, the `calls` list in the search
result has length at most 10, and its entries are exactly the (successful)
projections of the first `min 10 n` calls of the payload, for payloads of
any length `n`. -/
theorem search_calls_truncates_to_ten (now1 now2 : Int)
    (fields : List (String × Json)) (cs projected : List Json)
    (hfields : lookupKey fields "calls" = some (.arr cs))
    (h : mapExcept projectCall (cs.take 10) = .ok projected) :
    (search_calls now1 now2 (constRemote (.obj fields)) []).2
        = .ok (.obj [("found", .num (projected.length : Int)),
                     ("calls", .arr projected)])
      ∧ projected.length = min 10 cs.length ∧ projected.length ≤ 10 := by
  have hlen := mapExcept_ok_length _ _ _ h
  rw [List.length_take] at hlen
  have hform : (search_calls now1 now2 (constRemote (.obj fields)) []).2
      = formatSearchResponse (.obj fields) := rfl
  have hfmt : formatSearchResponse (.obj fields)
      = .ok (.obj [("found", .num (projected.length : Int)),
                   ("calls", .arr projected)]) := by
    simp only [formatSearchResponse, jget_obj, hfields, Option.getD, h]
  exact ⟨hform.trans hfmt, hlen, hlen.trans_le (Nat.min_le_left 10 cs.length)⟩

theorem search_calls_truncates_to_ten_witness :
    (search_calls 0 0 (constRemote (.obj [("calls",
        Json.arr (List.replicate 12 (Json.obj [("id", Json.num 1)])))])) []).2
        = .ok (.obj [("found", .num 10),
                     ("calls", .arr (List.replicate 10 sampleProjectedCall))])
      ∧ (List.replicate 10 sampleProjectedCall).length
          = min 10 (List.replicate 12 (Json.obj [("id", Json.num 1)])).length
      ∧ (List.replicate 10 sampleProjectedCall).length ≤ 10 :=
  search_calls_truncates_to_ten 0 0 _
    (List.replicate 12 (Json.obj [("id", Json.num 1)]))
    (List.replicate 10 sampleProjectedCall) rfl rfl

/-- C9: the `found` field of the search result equals the length of the
truncated `calls` list, `min 10 n`; it is never more than 10, and when the
remote returns more than 10 calls it reports 10, not the remote total. -/
theorem search_found_counts_truncated (now1 now2 : Int)
    (fields : List (String × Json)) (cs projected : List Json)
    (hfields : lookupKey fields "calls" = some (.arr cs))
    (h : mapExcept projectCall (cs.take 10) = .ok projected) :
    (search_calls now1 now2 (constRemote (.obj fields)) []).2
        = .ok (.obj [("found", .num ((min 10 cs.length : Nat) : Int)),
                     ("calls", .arr projected)])
      ∧ (min 10 cs.length : Nat) ≤ 10
      ∧ (10 < cs.length → (min 10 cs.length : Nat) = 10) := by
  have hlen := mapExcept_ok_length _ _ _ h
  rw [List.length_take] at hlen
  have hform : (search_calls now1 now2 (constRemote (.obj fields)) []).2
      = formatSearchResponse (.obj fields) := rfl
  have hfmt : formatSearchResponse (.obj fields)
      = .ok (.obj [("found", .num (projected.length : Int)),
                   ("calls", .arr projected)]) := by
    simp only [formatSearchResponse, jget_obj, hfields, Option.getD, h]
  refine ⟨?_, Nat.min_le_left 10 cs.length, fun hgt => ?_⟩
  · rw [hform, hfmt, hlen]
  · omega

theorem search_found_counts_truncated_witness :
    (search_calls 0 0 (constRemote (.obj [("calls",
        Json.arr (List.replicate 11 (Json.obj [("id", Json.str "c")])))])) []).2
        = .ok (.obj [("found", .num 10),
                     ("calls", .arr (List.replicate 10 (Json.obj
                        [("id", .str "c"), ("title", .str "Untitled"),
                         ("date", .null), ("duration", .null),
                         ("owner", .null), ("participants", .arr []),
                         ("url", .null)])))])
      ∧ (10 : Nat) ≤ 10 ∧ (10 < 11 → (10 : Nat) = 10) :=
  search_found_counts_truncated 0 0 _
    (List.replicate 11 (Json.obj [("id", Json.str "c")])) _ rfl rfl

/-- C2: a remote transcript response whose `callTranscripts` list is empty
makes the transcript operation return a normal (`Except.ok`) result that
carries the soft error field, not an exception and not the list-shaped
transcript result. -/
theorem transcript_empty_soft_error (fields : List (String × Json))
    (call_id : Json)
    (h : lookupKey fields "callTranscripts" = some (.arr [])) :
    (get_call_transcript (constRemote (.obj fields)) call_id).2
      = .ok (.obj [("error", .str "No transcript found for this call")]) := by
  have hform : (get_call_transcript (constRemote (.obj fields)) call_id).2
      = formatTranscript call_id (.obj fields) := rfl
  rw [hform]
  simp only [formatTranscript, jget_obj, h, Option.getD, truthy]
  rfl

theorem transcript_empty_soft_error_witness :
    (get_call_transcript (constRemote (.obj [("callTranscripts",
        Json.arr [])])) (Json.str "X")).2
      = .ok (.obj [("error", .str "No transcript found for this call")]) :=
  transcript_empty_soft_error [("callTranscripts", Json.arr [])]
    (Json.str "X") rfl

/-- C4: for a non-empty transcript list whose first entry holds
`total_sentences` sentences, the transcript result reports
`showing = min 50 total_sentences`, a conversation of exactly the first
`min 50 total_sentences` projected sentences, and the full
`total_sentences` count. -/
theorem transcript_projection_caps_at_fifty (call_id : Json)
    (fields tfields : List (String × Json)) (rest : List Json)
    (sentences conversation : List Json)
    (hct : lookupKey fields "callTranscripts"
        = some (.arr (Json.obj tfields :: rest)))
    (hs : lookupKey tfields "sentences" = some (.arr sentences))
    (hconv : mapExcept projectSentence (sentences.take 50)
        = .ok conversation) :
    (get_call_transcript (constRemote (.obj fields)) call_id).2
        = .ok (.obj [("call_id", call_id),
                     ("conversation", .arr conversation),
                     ("total_sentences", .num (sentences.length : Int)),
                     ("showing", .num (min 50 sentences.length : Nat))])
      ∧ conversation.length = min 50 sentences.length := by
  have hlen := mapExcept_ok_length _ _ _ hconv
  rw [List.length_take] at hlen
  have hform : (get_call_transcript (constRemote (.obj fields)) call_id).2
      = formatTranscript call_id (.obj fields) := rfl
  refine ⟨?_, hlen⟩
  rw [hform]
  simp only [formatTranscript, jget_obj, hct, hs, Option.getD, truthy,
    List.isEmpty, Bool.not_false, hconv]
  rfl

theorem transcript_projection_caps_at_fifty_witness :
    (get_call_transcript (constRemote (.obj [("callTranscripts",
        Json.arr [Json.obj [("sentences",
          Json.arr (List.replicate 3 (Json.obj [])))]])])) (Json.str "X")).2
        = .ok (.obj [("call_id", .str "X"),
                     ("conversation",
                       .arr (List.replicate 3 sampleSentenceProj)),
                     ("total_sentences", .num 3), ("showing", .num 3)])
      ∧ (List.replicate 3 sampleSentenceProj).length
          = min 50 (List.replicate 3 (Json.obj [])).length :=
  transcript_projection_caps_at_fifty (Json.str "X") _
    [("sentences", Json.arr (List.replicate 3 (Json.obj [])))] []
    (List.replicate 3 (Json.obj [])) (List.replicate 3 sampleSentenceProj)
    rfl rfl rfl

theorem runRequest_fst (req : HttpRequest)
    (remote : HttpRequest → RemoteResponse)
    (reshape : Json → Except String Json) :
    (runRequest req remote reshape).1 = [req] := by
  unfold runRequest
  rcases make_gong_request (remote req) with e | r <;> rfl

/-- C3: two search invocations that agree on `days_back` (same clock, same
remote) but differ arbitrarily in `owner_email`, `min_duration` and
`keyword` issue the same single HTTP request — a GET on `/calls` carrying
only the date-range query and no body — and return identical results. -/
theorem search_ignores_extra_filters (now1 now2 : Int)
    (remote : HttpRequest → RemoteResponse)
    (p1 p2 : List (String × Json)) (db : Int)
    (hagree : lookupKey p1 "days_back" = lookupKey p2 "days_back")
    (hdb : getDaysBack p1 7 = .ok db) :
    search_calls now1 now2 remote p1 = search_calls now1 now2 remote p2
      ∧ (search_calls now1 now2 remote p1).1
          = [{ method := "GET", endpoint := "/calls",
               query := [("fromDateTime", isoZ (now1 - db * secondsPerDay)),
                         ("toDateTime", isoZ now2)],
               body := none }] := by
  have hdb2 : getDaysBack p2 7 = .ok db := by
    unfold getDaysBack at hdb ⊢
    rw [← hagree]
    exact hdb
  constructor
  · unfold search_calls
    rw [hdb, hdb2]
  · unfold search_calls
    rw [hdb]
    exact runRequest_fst _ _ _

theorem search_ignores_extra_filters_witness :
    search_calls 0 0 (constRemote (Json.obj []))
        [("owner_email", Json.str "a@b.c")]
      = search_calls 0 0 (constRemote (Json.obj []))
        [("min_duration", Json.num 60), ("keyword", Json.str "pricing")]
      ∧ (search_calls 0 0 (constRemote (Json.obj []))
          [("owner_email", Json.str "a@b.c")]).1
        = [{ method := "GET", endpoint := "/calls",
             query := [("fromDateTime", isoZ (0 - 7 * secondsPerDay)),
                       ("toDateTime", isoZ 0)],
             body := none }] :=
  search_ignores_extra_filters 0 0 (constRemote (Json.obj []))
    [("owner_email", Json.str "a@b.c")]
    [("min_duration", Json.num 60), ("keyword", Json.str "pricing")]
    7 rfl rfl

/-- C5: invoking the transcript or stats operation with an absent argument
map, or one lacking the `call_id` key, produces the error envelope and an
empty request trace — no network request is issued. -/
theorem missing_call_id_no_network (now1 now2 : Int)
    (remote : HttpRequest → RemoteResponse) (name : String)
    (arguments : Option (List (String × Json)))
    (hname : name = "get_call_transcript" ∨ name = "get_call_stats")
    (hargs : arguments = none
      ∨ ∃ args, arguments = some args ∧ lookupKey args "call_id" = none) :
    handle_call_tool now1 now2 remote name arguments
      = ([], .obj [("error",
          .str ("call_id is required for " ++ name))]) := by
  have hreq : requireCallId arguments = none := by
    rcases hargs with rfl | ⟨args, rfl, hl⟩
    · rfl
    · rcases args with _ | ⟨p, tl⟩
      · rfl
      · exact hl
  rcases hname with rfl | rfl
  · have hd : dispatch now1 now2 remote "get_call_transcript" arguments
        = (match requireCallId arguments with
           | none => (([], .error "call_id is required for get_call_transcript")
               : List HttpRequest × Except String Json)
           | some call_id => get_call_transcript remote call_id) := rfl
    unfold handle_call_tool
    rw [hd, hreq]
    rfl
  · have hd : dispatch now1 now2 remote "get_call_stats" arguments
        = (match requireCallId arguments with
           | none => (([], .error "call_id is required for get_call_stats")
               : List HttpRequest × Except String Json)
           | some call_id => get_call_stats remote call_id) := rfl
    unfold handle_call_tool
    rw [hd, hreq]
    rfl

theorem missing_call_id_no_network_witness :
    handle_call_tool 0 0 (constRemote Json.null) "get_call_transcript" none
      = ([], .obj [("error",
          .str "call_id is required for get_call_transcript")]) :=
  missing_call_id_no_network 0 0 (constRemote Json.null)
    "get_call_transcript" none (Or.inl rfl) (Or.inl rfl)

/-- C6: when the remote answers any request with a non-2xx status, each of
the four operations produces the error envelope whose message carries the
numeric status code and the raw response body text; the dispatch layer
catches the failure instead of crashing. -/
theorem http_error_status_in_envelope (now1 now2 : Int) (status : Nat)
    (text cid : String) (name : String)
    (hname : name = "search_calls" ∨ name = "get_call_transcript"
      ∨ name = "get_call_stats" ∨ name = "list_scorecards") :
    (handle_call_tool now1 now2 (httpErrorRemote status text) name
        (some [("call_id", Json.str cid)])).2
      = .obj [("error",
          .str ("Gong API error " ++ toString status ++ ": " ++ text))] := by
  rcases hname with rfl | rfl | rfl | rfl <;> rfl

theorem http_error_status_in_envelope_witness :
    (handle_call_tool 0 0 (httpErrorRemote 404 "Not Found") "search_calls"
        (some [("call_id", Json.str "C1")])).2
      = .obj [("error", .str "Gong API error 404: Not Found")] :=
  http_error_status_in_envelope 0 0 404 "Not Found" "C1" "search_calls"
    (Or.inl rfl)

/-- C7: an invocation name that matches none of the four operations yields
the error envelope naming the unknown tool, with no handler invoked and an
empty request trace. -/
theorem unknown_tool_error_envelope (now1 now2 : Int)
    (remote : HttpRequest → RemoteResponse) (name : String)
    (arguments : Option (List (String × Json)))
    (hname : name ∉ ["search_calls", "get_call_transcript",
        "get_call_stats", "list_scorecards"]) :
    handle_call_tool now1 now2 remote name arguments
      = ([], .obj [("error", .str ("Unknown tool: " ++ name))]) := by
  simp only [List.mem_cons, List.not_mem_nil, or_false, not_or] at hname
  obtain ⟨h1, h2, h3, h4⟩ := hname
  unfold handle_call_tool dispatch
  rw [if_neg h1, if_neg h2, if_neg h3, if_neg h4]
  rfl

theorem unknown_tool_error_envelope_witness :
    handle_call_tool 0 0 (constRemote Json.null) "delete_call" none
      = ([], .obj [("error", .str "Unknown tool: delete_call")]) :=
  unknown_tool_error_envelope 0 0 (constRemote Json.null) "delete_call"
    none (by decide)

/-- C8: for `days_back ≥ 0` and a monotone wall clock, the date window used
by the search and scorecard operations satisfies `from ≤ to` with `to`
exactly the invocation-time clock reading; two invocations whose `to`
readings differ produce different windows, so the computation is not
idempotent. -/
theorem date_window_ordered (now1 now2 m1 m2 db : Int) (hdb : 0 ≤ db)
    (hclock : now1 ≤ now2) (hchanged : now2 ≠ m2) :
    (dateWindow now1 now2 db).1 ≤ (dateWindow now1 now2 db).2
      ∧ (dateWindow now1 now2 db).2 = now2
      ∧ dateWindow now1 now2 db ≠ dateWindow m1 m2 db := by
  refine ⟨?_, rfl, ?_⟩
  · have h1 : 0 ≤ db * secondsPerDay :=
      mul_nonneg hdb (by norm_num [secondsPerDay])
    simp only [dateWindow]
    linarith
  · intro hcontra
    exact hchanged (congrArg Prod.snd hcontra)

theorem date_window_ordered_witness :
    (dateWindow 0 5 7).1 ≤ (dateWindow 0 5 7).2
      ∧ (dateWindow 0 5 7).2 = 5
      ∧ dateWindow 0 5 7 ≠ dateWindow 0 9 7 :=
  date_window_ordered 0 5 0 9 7 (by norm_num) (by norm_num) (by norm_num)

/-- C10 as stated is false: in this payload every one of the first 10 call
objects contains an `id` key, yet the search operation produces the error
envelope rather than a total projection, because the call's `owner` field
is a number and `.get` on it raises an AttributeError. -/
theorem search_projection_totality_counterexample :
    ([Json.obj [("id", Json.num 1), ("owner", Json.num 5)]].take 10).all
        hasIdKey = true
      ∧ isErrorEnvelope ((handle_call_tool 0 0 (constRemote (Json.obj
          [("calls", Json.arr [Json.obj [("id", Json.num 1),
            ("owner", Json.num 5)]])])) "search_calls" (some [])).2)
        = true :=
  ⟨rfl, rfl⟩

/-- C10 (amended): if every one of the first 10 call objects is a dict
containing an `id` key whose `owner` field (when present) is a dict and
whose `participants` field (when present) is a list of dicts, the search
projection is total and the operation succeeds; and if some call among the
first 10 is a dict lacking `id`, the entire operation yields the error
envelope instead of a partial result. -/
theorem search_projection_amended (now1 now2 now3 now4 : Int)
    (cs ds : List Json) (c : Json)
    (hwf : ∀ x ∈ cs.take 10, callWellFormed x = true)
    (hc : c ∈ ds.take 10) (hlack : objWithoutId c = true) :
    isOkE ((search_calls now1 now2
        (constRemote (Json.obj [("calls", Json.arr cs)])) []).2) = true
      ∧ isErrorEnvelope ((handle_call_tool now3 now4
          (constRemote (Json.obj [("calls", Json.arr ds)]))
          "search_calls" (some [])).2) = true := by
  constructor
  · have hok : isOkE (mapExcept projectCall (cs.take 10)) = true :=
      mapExcept_isOk_of_forall _ _
        (fun x hx => projectCall_isOk_of_wellFormed x (hwf x hx))
    rcases (isOkE_true_iff _).mp hok with ⟨ys, hys⟩
    have hform : (search_calls now1 now2
        (constRemote (Json.obj [("calls", Json.arr cs)])) []).2
        = (match mapExcept projectCall (cs.take 10) with
           | .error e => (Except.error e : Except String Json)
           | .ok calls => .ok (.obj [("found", .num (calls.length : Int)),
                                     ("calls", .arr calls)])) := rfl
    rw [hform, hys]
    rfl
  · have hbadc : isOkE (projectCall c) = false := by
      rcases c with _ | b | n | s | xs | fields <;>
        simp [objWithoutId] at hlack
      simp only [projectCall, hlack]
      rfl
    have hbad := mapExcept_isOk_false_of_mem projectCall c _ hc hbadc
    rcases (isOkE_false_iff _).mp hbad with ⟨e, he⟩
    have hfmt : formatSearchResponse (Json.obj [("calls", Json.arr ds)])
        = .error e := by
      have h0 : formatSearchResponse (Json.obj [("calls", Json.arr ds)])
          = (match mapExcept projectCall (ds.take 10) with
             | .error e => (Except.error e : Except String Json)
             | .ok calls => .ok (.obj [("found", .num (calls.length : Int)),
                                       ("calls", .arr calls)])) := rfl
      rw [h0, he]
    have hrun : (handle_call_tool now3 now4
          (constRemote (Json.obj [("calls", Json.arr ds)]))
          "search_calls" (some [])).2
        = (envelope ([HttpRequest.mk "GET" "/calls"
              [("fromDateTime", isoZ (now3 - 7 * secondsPerDay)),
               ("toDateTime", isoZ now4)] none],
            formatSearchResponse (Json.obj [("calls", Json.arr ds)]))).2 :=
      rfl
    rw [hrun, hfmt]
    rfl

theorem search_projection_amended_witness :
    isOkE ((search_calls 0 0 (constRemote (Json.obj [("calls",
        Json.arr [Json.obj [("id", Json.num 7)]])])) []).2) = true
      ∧ isErrorEnvelope ((handle_call_tool 0 0 (constRemote (Json.obj
          [("calls", Json.arr [Json.obj [("title", Json.str "t")]])]))
          "search_calls" (some [])).2) = true :=
  search_projection_amended 0 0 0 0 [Json.obj [("id", Json.num 7)]]
    [Json.obj [("title", Json.str "t")]]
    (Json.obj [("title", Json.str "t")])
    (by decide) (by exact List.Mem.head _) rfl

end GongMCP
